import Mathlib

/-!
Verification of the joule-profiler benchmark harness
(src/joule-profiler-benchmark.py).

The embedding below translates the notebook functions into Lean:
numeric columns are modelled as rationals, dataframes as lists of
records, the subprocess boundary as an oracle returning an explicit
result record, and errors as an `Except` value.  Values that can become
IEEE infinities (the `1000 / measure_delta` division in `df_aggregate`)
are modelled with an explicit extended type `PFloat`.
-/

/-- `hz_to_s` from the source: `0 if not hz or hz <= 0 else 1 / hz`.
The argument may be `None` (Python), hence `Option ℚ`; `not hz` is the
Python truthiness test, true for `None` and for `0`. -/
def hz_to_s : Option ℚ → ℚ
  | none => 0
  | some hz => if hz ≤ 0 then 0 else 1 / hz

/-- Length of the Python sequence `range(start, stop, step)` for a
nonzero step, following the CPython length computation. -/
def rangeLen (start stop step : ℤ) : ℕ :=
  if 0 < step then
    if start < stop then ((stop - start - 1) / step).toNat + 1 else 0
  else
    if stop < start then ((start - stop - 1) / (-step)).toNat + 1 else 0

/-- Python `range(start, stop, step)` as a list; `none` models the
`ValueError` Python raises when `step == 0`. -/
def pyRange (start stop step : ℤ) : Option (List ℤ) :=
  if step = 0 then none
  else some ((List.range (rangeLen start stop step)).map (fun k => start + (k : ℤ) * step))

/-- `yield_every(step, n)` from the source:
`for i in range(0, n * step + 1, step): yield i`. -/
def yield_every (step n : ℤ) : Option (List ℤ) :=
  pyRange 0 (n * step + 1) step

/-- One argument of the constructed subprocess command: either a plain
string or a numeric value (the stringified `polling_s`). -/
inductive Arg
  | s (v : String)
  | q (v : ℚ)
deriving DecidableEq

/-- The profiler binary path constant from the source. -/
def JOULE_PROFILER : String := "./joule-profiler/target/debug/joule-profiler"

/-- The fixed head of the command list built by `run_joule_profiler`:
`["sudo", "-S", JOULE_PROFILER, "simple", "--csv", "--jouleit-file", str(csv_path)]`. -/
def base_cmd (csv_path : String) : List Arg :=
  [Arg.s "sudo", Arg.s "-S", Arg.s JOULE_PROFILER, Arg.s "simple",
   Arg.s "--csv", Arg.s "--jouleit-file", Arg.s csv_path]

/-- The command list constructed by `run_joule_profiler`:
`rapl_polling == 0` is first remapped to `None`; the
`--rapl-polling` flag (with value `hz_to_s(rapl_polling)`) is appended
only when `rapl_polling is not None`; then `extra_args`
(defaulting to the empty list), `--` and the workload command. -/
def build_cmd (command : List String) (rapl_polling : Option ℚ)
    (extra_args0 : Option (List String)) (csv_path : String) : List Arg :=
  let extra_args := extra_args0.getD []
  let rapl_polling := if rapl_polling = some 0 then none else rapl_polling
  let cmd := base_cmd csv_path
  let polling_s := hz_to_s rapl_polling
  let cmd := cmd ++ (match rapl_polling with
    | none => []
    | some _ => [Arg.s "--rapl-polling", Arg.q polling_s])
  let cmd := cmd ++ extra_args.map Arg.s
  cmd ++ [Arg.s "--"] ++ command.map Arg.s

/-- One row of the CSV file emitted by the profiler, as read by
`pl.read_csv(csv_path, separator=";")`: per-domain energy (we keep the
`CORE_0` column used downstream), `measure_count`, `duration_ms`,
`measure_delta` (raw microsecond units), `command` and `exit_code`. -/
structure TrialRow where
  CORE_0 : ℚ
  measure_count : ℚ
  duration_ms : ℚ
  measure_delta : ℚ
  command : String
  exit_code : ℤ
deriving DecidableEq

/-- A `TrialRow` after `generate_iters` tagged it with the constant
`expected_frequency` column and divided `measure_delta` by 1000
(microseconds to milliseconds). -/
structure TaggedRow where
  expected_frequency : ℚ
  CORE_0 : ℚ
  measure_count : ℚ
  duration_ms : ℚ
  measure_delta : ℚ
  command : String
  exit_code : ℤ
deriving DecidableEq

/-- A row after `df_removed_unused_columns` dropped `command` and
`exit_code`; also the row type of the grouped table. -/
structure Row where
  expected_frequency : ℚ
  CORE_0 : ℚ
  measure_count : ℚ
  duration_ms : ℚ
  measure_delta : ℚ
deriving DecidableEq

/-- Observable outcome of one profiler subprocess invocation: its exit
code, its captured standard error, and the parsed content of the output
CSV (`none` when the file is missing or unparsable). -/
structure ProcResult where
  exit_code : ℤ
  stderr : String
  output : Option (List TrialRow)

/-- The exceptions `run_joule_profiler` can raise:
`subprocess.run(..., check=True)` raises `CalledProcessError` (carrying
the captured standard error) on a nonzero exit code, and
`pl.read_csv` raises when the output file is missing or unparsable. -/
inductive Err
  | CalledProcessError (stderr : String)
  | ReadCsvError
deriving DecidableEq

/-- Result of one `run_joule_profiler` call given the outcome of its
subprocess: `check=True` raises first on a nonzero exit code; only
after a zero exit is the CSV read, and a missing/unparsable file
raises the read error. -/
def run_joule_profiler_result (res : ProcResult) : Except Err (List TrialRow) :=
  if res.exit_code ≠ 0 then .error (.CalledProcessError res.stderr)
  else match res.output with
    | none => .error .ReadCsvError
    | some rows => .ok rows

/-- The two `with_columns` steps of `generate_iters` applied to the
concatenated trials of one polling point: tag every row with
`expected_frequency := polling` and divide `measure_delta` by 1000. -/
def tag_rows (polling : ℚ) (rows : List TrialRow) : List TaggedRow :=
  rows.map (fun r =>
    { expected_frequency := polling
      CORE_0 := r.CORE_0
      measure_count := r.measure_count
      duration_ms := r.duration_ms
      measure_delta := r.measure_delta / 1000
      command := r.command
      exit_code := r.exit_code })

/-- The inner loop of `generate_iters`: run `nb` sequential profiler
invocations (the oracle `run` gives the result of the k-th call) and
concatenate their rows; a raised exception propagates immediately. -/
def run_iterations (run : ℕ → Except Err (List TrialRow)) : ℕ → Except Err (List TrialRow)
  | 0 => .ok []
  | n + 1 =>
    match run 0 with
    | .error e => .error e
    | .ok r =>
      match run_iterations (fun k => run (k + 1)) n with
      | .error e => .error e
      | .ok rest => .ok (r ++ rest)

/-- `generate_iters` from the source: the outer loop over the polling
points; per point the trials are run, concatenated, tagged, and the
per-point tables are concatenated in order; any exception raised by an
invocation propagates and the whole collection produces no table. -/
def generate_iters (run : ℚ → ℕ → Except Err (List TrialRow))
    (pollings : List ℚ) (nb_iterations : ℕ) : Except Err (List TaggedRow) :=
  match pollings with
  | [] => .ok []
  | p :: rest =>
    match run_iterations (run p) nb_iterations with
    | .error e => .error e
    | .ok trials =>
      match generate_iters run rest nb_iterations with
      | .error e => .error e
      | .ok others => .ok (tag_rows p trials ++ others)

/-- `df_removed_unused_columns` from the source: drop the `command` and
`exit_code` columns. -/
def df_removed_unused_columns (df : List TaggedRow) : List Row :=
  df.map (fun r =>
    { expected_frequency := r.expected_frequency
      CORE_0 := r.CORE_0
      measure_count := r.measure_count
      duration_ms := r.duration_ms
      measure_delta := r.measure_delta })

/-- Arithmetic mean of a list of rationals (the polars `pl.mean`
aggregation over one group). -/
def meanQ (xs : List ℚ) : ℚ := xs.sum / (xs.length : ℚ)

/-- The partition of the dataframe for one `expected_frequency` key. -/
def filterKey (df : List Row) (k : ℚ) : List Row :=
  df.filter (fun r => r.expected_frequency = k)

/-- The aggregated row `df_group_by_expected_frequency` produces for
one key: the key itself plus the mean of every other column over the
partition of that key. -/
def groupRow (df : List Row) (k : ℚ) : Row :=
  { expected_frequency := k
    CORE_0 := meanQ ((filterKey df k).map Row.CORE_0)
    measure_count := meanQ ((filterKey df k).map Row.measure_count)
    duration_ms := meanQ ((filterKey df k).map Row.duration_ms)
    measure_delta := meanQ ((filterKey df k).map Row.measure_delta) }

/-- `df_group_by_expected_frequency` from the source:
`df.group_by("expected_frequency").agg([pl.mean(c) for c in df.columns if c != "expected_frequency"])`;
one output row per distinct key (polars leaves the row order
unspecified; we enumerate the distinct keys of the input). -/
def df_group_by_expected_frequency (df : List Row) : List Row :=
  ((df.map Row.expected_frequency).dedup).map (groupRow df)

/-- A polars float value: finite, one of the two infinities, or NaN.
Needed because `1000 / measure_delta` is IEEE division, which yields
an infinity on a zero divisor instead of raising. -/
inductive PFloat
  | fin (q : ℚ)
  | inf
  | negInf
  | nan
deriving DecidableEq

/-- IEEE-style division of two finite values as polars computes it:
division by zero yields an infinity of the sign of the numerator
(NaN for 0/0), otherwise the exact finite quotient. -/
def fdiv (a b : ℚ) : PFloat :=
  if b = 0 then
    if a = 0 then .nan else if 0 < a then .inf else .negInf
  else .fin (a / b)

/-- One row of the table returned by `df_aggregate`: after the final
`select`, `real_frequency` comes first, followed by the remaining
columns in order. -/
structure AggRow where
  real_frequency : PFloat
  expected_frequency : ℚ
  CORE_0 : ℚ
  measure_delta : ℚ
  core_energy : ℚ
deriving DecidableEq

/-- The per-row computation of `df_aggregate`: compute
`real_frequency = 1000 / measure_delta` and
`core_energy = CORE_0 / 1000000`, then override `real_frequency` with
`0` wherever `expected_frequency == 0`; `measure_count` and
`duration_ms` are dropped and `real_frequency` is moved first. -/
def agg_row (r : Row) : AggRow :=
  let real_frequency := fdiv 1000 r.measure_delta
  let core_energy := r.CORE_0 / 1000000
  let real_frequency := if r.expected_frequency = 0 then PFloat.fin 0 else real_frequency
  { real_frequency := real_frequency
    expected_frequency := r.expected_frequency
    CORE_0 := r.CORE_0
    measure_delta := r.measure_delta
    core_energy := core_energy }

/-- `df_aggregate` from the source, applied to the grouped table. -/
def df_aggregate (df : List Row) : List AggRow :=
  df.map agg_row

/-- Claim C2: `hz_to_s` returns 0 on input 0, returns `1/f` for every
positive input `f`, and returns 0 for every negative input, as a total
sentinel policy (the function is total, so no error is possible). -/
theorem c2_hz_to_s_sentinel :
    hz_to_s (some 0) = 0 ∧ (∀ f : ℚ, 0 < f → hz_to_s (some f) = 1 / f) ∧
      ∀ f : ℚ, f < 0 → hz_to_s (some f) = 0 := by
  refine ⟨by simp [hz_to_s], fun f hf => ?_, fun f hf => ?_⟩
  · simp [hz_to_s, not_le.mpr hf]
  · simp [hz_to_s, hf.le]

/-- Witness for C2 at the concrete inputs 2 and -3. -/
theorem c2_witness :
    ((0 : ℚ) < 2 ∧ hz_to_s (some 2) = 1 / 2) ∧ ((-3 : ℚ) < 0 ∧ hz_to_s (some (-3)) = 0) :=
  ⟨⟨by norm_num, c2_hz_to_s_sentinel.2.1 2 (by norm_num)⟩,
   ⟨by norm_num, c2_hz_to_s_sentinel.2.2 (-3) (by norm_num)⟩⟩

/-- Counterexample to C6 as stated: with step -1 and count 1 the claim
demands the two values 0 and -1, but `yield_every (-1) 1` is
`range(0, 0, -1)`, the empty sequence; and step 0 raises `ValueError`
(modelled as `none`) instead of producing any values. -/
theorem c6_counterexample :
    yield_every (-1) 1 = some [] ∧ ([] : List ℤ).length ≠ 1 + 1 ∧ yield_every 0 5 = none := by
  refine ⟨by decide, by decide, by decide⟩

/-- Claim C6 as amended: for every count `n ≥ 0` and every POSITIVE
step, `yield_every step n` produces exactly the n+1 values
`0, step, 2*step, ..., n*step` in order (so count 0 yields the single
value 0); step 0 raises `ValueError`, and negative steps produce fewer
than n+1 values. -/
theorem c6_amended (step n : ℤ) (hs : 0 < step) (hn : 0 ≤ n) :
    yield_every step n = some ((List.range (n.toNat + 1)).map (fun k => (k : ℤ) * step)) := by
  have hs0 : step ≠ 0 := hs.ne'
  have hlen : rangeLen 0 (n * step + 1) step = n.toNat + 1 := by
    have hmul : 0 ≤ n * step := mul_nonneg hn hs.le
    have hpos : (0 : ℤ) < n * step + 1 := by omega
    rw [rangeLen, if_pos hs, if_pos hpos]
    have hsub : n * step + 1 - 0 - 1 = n * step := by ring
    rw [hsub, Int.mul_ediv_cancel n hs0]
  simp only [yield_every, pyRange, if_neg hs0, hlen, zero_add]

/-- Witness for the amended C6 at step 3, count 2. -/
theorem c6_witness : yield_every 3 2 = some [0, 3, 6] :=
  (c6_amended 3 2 (by decide) (by decide)).trans (by decide)

/-- Claim C1: in every table produced by `df_aggregate`, a row whose
`expected_frequency` is 0 has `real_frequency` exactly 0, whatever the
mean `measure_delta` of that row is (the override replaces the computed
reciprocal unconditionally). -/
theorem c1_zero_override (df : List Row) (r : AggRow) (hr : r ∈ df_aggregate df)
    (h0 : r.expected_frequency = 0) : r.real_frequency = PFloat.fin 0 := by
  simp only [df_aggregate] at hr
  obtain ⟨s, hs, rfl⟩ := List.mem_map.mp hr
  have hs0 : s.expected_frequency = 0 := h0
  simp [agg_row, hs0]

/-- Witness for C1: a zero-frequency row with nonzero delta 7
aggregates to `real_frequency = 0`. -/
theorem c1_witness : (agg_row ⟨0, 2500000, 10, 100, 7⟩).real_frequency = PFloat.fin 0 :=
  c1_zero_override [⟨0, 2500000, 10, 100, 7⟩] _ (by simp [df_aggregate]) (by decide)

/-- The mean of a single value is that value. -/
theorem meanQ_singleton (x : ℚ) : meanQ [x] = x := by
  simp [meanQ]

/-- Grouping a single-row table at the key of that row returns the row
itself (every mean is a mean of one value). -/
theorem groupRow_singleton (r : Row) : groupRow [r] r.expected_frequency = r := by
  cases r with
  | mk a b c d e => simp [groupRow, filterKey, meanQ_singleton]

/-- Grouping a single-row table returns that table. -/
theorem df_group_single (r : Row) : df_group_by_expected_frequency [r] = [r] := by
  simp [df_group_by_expected_frequency, groupRow_singleton]

/-- Claim C3: with `rapl_polling` equal to `None` or `0` the command
built by `run_joule_profiler` contains no `--rapl-polling` flag at all,
and for every positive requested frequency `f` (a `FrequencyPoint` is
non-negative) the flag is present with the interval value `1 / f`
seconds. -/
theorem c3_polling_flag (command : List String) (extra_args : List String) (csv_path : String) :
    build_cmd command none (some extra_args) csv_path =
        base_cmd csv_path ++ extra_args.map Arg.s ++ [Arg.s "--"] ++ command.map Arg.s ∧
    build_cmd command (some 0) (some extra_args) csv_path =
        base_cmd csv_path ++ extra_args.map Arg.s ++ [Arg.s "--"] ++ command.map Arg.s ∧
    ∀ f : ℚ, 0 < f →
      build_cmd command (some f) (some extra_args) csv_path =
        base_cmd csv_path ++ [Arg.s "--rapl-polling", Arg.q (1 / f)] ++ extra_args.map Arg.s
          ++ [Arg.s "--"] ++ command.map Arg.s := by
  refine ⟨by simp [build_cmd], by simp [build_cmd], fun f hf => ?_⟩
  have hne : f ≠ 0 := hf.ne'
  simp [build_cmd, hne, hz_to_s, not_le.mpr hf, List.append_assoc]

/-- Witness for C3 at frequency 2 Hz: the flag carries 1/2 second. -/
theorem c3_witness :
    (0 : ℚ) < 2 ∧
      build_cmd ["python3", "nbody.py"] (some 2) (some []) "results.csv" =
        base_cmd "results.csv" ++ [Arg.s "--rapl-polling", Arg.q (1 / 2)]
          ++ ([] : List String).map Arg.s ++ [Arg.s "--"] ++ ["python3", "nbody.py"].map Arg.s :=
  ⟨by norm_num, (c3_polling_flag ["python3", "nbody.py"] [] "results.csv").2.2 2 (by norm_num)⟩

/-- Claim C10: for every strictly negative requested frequency the
`--rapl-polling` flag IS present, with value 0 (`hz_to_s` maps
negatives to 0, and only the exact value 0 is remapped to `None`). -/
theorem c10_negative_polling (command : List String) (extra_args : List String)
    (csv_path : String) (f : ℚ) (hf : f < 0) :
    build_cmd command (some f) (some extra_args) csv_path =
      base_cmd csv_path ++ [Arg.s "--rapl-polling", Arg.q 0] ++ extra_args.map Arg.s
        ++ [Arg.s "--"] ++ command.map Arg.s := by
  have hne : f ≠ 0 := hf.ne
  simp [build_cmd, hne, hz_to_s, hf.le, List.append_assoc]

/-- Witness for C10 at frequency -1 Hz. -/
theorem c10_witness :
    (-1 : ℚ) < 0 ∧
      build_cmd ["wl"] (some (-1)) (some []) "results.csv" =
        base_cmd "results.csv" ++ [Arg.s "--rapl-polling", Arg.q 0]
          ++ ([] : List String).map Arg.s ++ [Arg.s "--"] ++ ["wl"].map Arg.s :=
  ⟨by norm_num, c10_negative_polling ["wl"] [] "results.csv" (-1) (by norm_num)⟩

/-- Counterexample to C4 as stated: the code defines no
`DegenerateDeltaError` and raises nothing at aggregation time; for the
single-row input with `expected_frequency = 1000` and mean
`measure_delta = 0`, the full group-then-aggregate pipeline RETURNS a
table whose `real_frequency` is positive infinity. -/
theorem c4_counterexample :
    (df_aggregate (df_group_by_expected_frequency
        [⟨1000, 2500000, 10, 100, 0⟩])).map AggRow.real_frequency = [PFloat.inf] := by
  rw [df_group_single]
  norm_num [df_aggregate, agg_row, fdiv]

/-- Claim C4 as amended: aggregation raises no error; a grouped row
with mean `measure_delta` exactly 0 and non-zero `expected_frequency`
is kept in the returned table with `real_frequency` equal to positive
infinity (IEEE division by zero), silently. -/
theorem c4_amended (df : List Row) (r : Row) (hr : r ∈ df) (hd : r.measure_delta = 0)
    (hf : r.expected_frequency ≠ 0) :
    agg_row r ∈ df_aggregate df ∧ (agg_row r).real_frequency = PFloat.inf := by
  constructor
  · simp only [df_aggregate]
    exact List.mem_map_of_mem _ hr
  · norm_num [agg_row, fdiv, hd, hf]

/-- Witness for the amended C4 at a concrete zero-delta row. -/
theorem c4_witness :
    agg_row ⟨1000, 2500000, 10, 100, 0⟩ ∈ df_aggregate [⟨1000, 2500000, 10, 100, 0⟩] ∧
      (agg_row ⟨1000, 2500000, 10, 100, 0⟩).real_frequency = PFloat.inf :=
  c4_amended [⟨1000, 2500000, 10, 100, 0⟩] _ (by decide) (by decide) (by decide)

/-- Claim C5: `agg_row` computes exactly
`real_frequency = 1000 / measure_delta` and
`core_energy = CORE_0 / 1000000` for rows with non-zero
`expected_frequency`, and the full pipeline on a single-trial,
single-frequency TrialSet yields exactly one aggregated row whose
`real_frequency` is `1000 / measure_delta_ms` of that trial (the mean
of one value is that value). -/
theorem c5_metric_derivation (t : TaggedRow) (hf : t.expected_frequency ≠ 0)
    (hd : t.measure_delta ≠ 0) :
    (∀ r : Row, r.expected_frequency ≠ 0 → r.measure_delta ≠ 0 →
        agg_row r = { real_frequency := PFloat.fin (1000 / r.measure_delta)
                      expected_frequency := r.expected_frequency
                      CORE_0 := r.CORE_0
                      measure_delta := r.measure_delta
                      core_energy := r.CORE_0 / 1000000 }) ∧
    df_aggregate (df_group_by_expected_frequency (df_removed_unused_columns [t])) =
      [{ real_frequency := PFloat.fin (1000 / t.measure_delta)
         expected_frequency := t.expected_frequency
         CORE_0 := t.CORE_0
         measure_delta := t.measure_delta
         core_energy := t.CORE_0 / 1000000 }] := by
  have hrow : ∀ r : Row, r.expected_frequency ≠ 0 → r.measure_delta ≠ 0 →
      agg_row r = { real_frequency := PFloat.fin (1000 / r.measure_delta)
                    expected_frequency := r.expected_frequency
                    CORE_0 := r.CORE_0
                    measure_delta := r.measure_delta
                    core_energy := r.CORE_0 / 1000000 } := by
    intro r h1 h2
    simp [agg_row, fdiv, h1, h2]
  refine ⟨hrow, ?_⟩
  have h1 : df_removed_unused_columns [t] =
      [(⟨t.expected_frequency, t.CORE_0, t.measure_count, t.duration_ms, t.measure_delta⟩ : Row)] :=
    rfl
  rw [h1, df_group_single]
  show [agg_row _] = _
  rw [hrow ⟨t.expected_frequency, t.CORE_0, t.measure_count, t.duration_ms, t.measure_delta⟩ hf hd]

/-- Witness for C5: a single trial with delta 2 ms and 2500000 µJ on
the CORE_0 domain aggregates to `real_frequency = 500` Hz and
`core_energy = 5/2` J. -/
theorem c5_witness :
    df_aggregate (df_group_by_expected_frequency (df_removed_unused_columns
        [⟨1000, 2500000, 10, 100, 2, "python3 nbody.py 500", 0⟩])) =
      [{ real_frequency := PFloat.fin 500
         expected_frequency := 1000
         CORE_0 := 2500000
         measure_delta := 2
         core_energy := 5 / 2 }] := by
  have h := (c5_metric_derivation ⟨1000, 2500000, 10, 100, 2, "python3 nbody.py 500", 0⟩
    (by norm_num) (by norm_num)).2
  exact h.trans (by norm_num)

/-- The mean is invariant under permutation of its inputs. -/
theorem meanQ_perm {xs ys : List ℚ} (h : xs.Perm ys) : meanQ xs = meanQ ys := by
  simp [meanQ, h.sum_eq, h.length_eq]

/-- Claim C7: permuting the rows of the input table leaves every
per-frequency aggregated row of `df_group_by_expected_frequency`
unchanged, and the grouped tables themselves are permutations of each
other (the mean reduction is order-independent). -/
theorem c7_group_perm (df df2 : List Row) (h : df.Perm df2) :
    (∀ k : ℚ, groupRow df k = groupRow df2 k) ∧
    (df_group_by_expected_frequency df).Perm (df_group_by_expected_frequency df2) := by
  have hpoint : ∀ k : ℚ, groupRow df k = groupRow df2 k := by
    intro k
    have hfil : (filterKey df k).Perm (filterKey df2 k) := h.filter _
    unfold groupRow
    congr 1 <;> exact meanQ_perm (hfil.map _)
  refine ⟨hpoint, ?_⟩
  have hkeys : ((df.map Row.expected_frequency).dedup).Perm
      ((df2.map Row.expected_frequency).dedup) := (h.map _).dedup
  have hfun : groupRow df = groupRow df2 := funext hpoint
  unfold df_group_by_expected_frequency
  rw [hfun]
  exact hkeys.map _

/-- Witness for C7 on a concrete two-row table and its swap. -/
theorem c7_witness :
    (∀ k : ℚ, groupRow [⟨1000, 2, 10, 100, 2⟩, ⟨0, 4, 10, 100, 4⟩] k
        = groupRow [⟨0, 4, 10, 100, 4⟩, ⟨1000, 2, 10, 100, 2⟩] k) ∧
    (df_group_by_expected_frequency [⟨1000, 2, 10, 100, 2⟩, ⟨0, 4, 10, 100, 4⟩]).Perm
        (df_group_by_expected_frequency [⟨0, 4, 10, 100, 4⟩, ⟨1000, 2, 10, 100, 2⟩]) :=
  c7_group_perm _ _ (List.Perm.swap _ _ _)

/-- If any of the `nb` sequential invocations of the inner trial loop
raises, the whole loop raises (the exception propagates immediately). -/
theorem run_iterations_error (run : ℕ → Except Err (List TrialRow)) (nb i : ℕ)
    (hi : i < nb) (h : ∃ e, run i = .error e) :
    ∃ e, run_iterations run nb = .error e := by
  induction nb generalizing run i with
  | zero => omega
  | succ n ih =>
    rcases h with ⟨e, he⟩
    rcases i with _ | j
    · exact ⟨e, by simp only [run_iterations, he]⟩
    · cases h0 : run 0 with
      | error e3 => exact ⟨e3, by simp only [run_iterations, h0]⟩
      | ok r =>
        obtain ⟨e2, he2⟩ := ih (fun k => run (k + 1)) j (by omega) ⟨e, he⟩
        exact ⟨e2, by simp only [run_iterations, h0, he2]⟩

/-- If the trials of any polling point in the sweep raise, the whole
collection raises (no partial-success continuation). -/
theorem generate_iters_error (run : ℚ → ℕ → Except Err (List TrialRow)) (pollings : List ℚ)
    (nb : ℕ) (p : ℚ) (hp : p ∈ pollings)
    (h : ∃ e, run_iterations (run p) nb = .error e) :
    ∃ e, generate_iters run pollings nb = .error e := by
  revert hp
  induction pollings with
  | nil => intro hp; cases hp
  | cons q rest ih =>
    intro hp
    cases h0 : run_iterations (run q) nb with
    | error e => exact ⟨e, by simp only [generate_iters, h0]⟩
    | ok trials =>
      rcases List.mem_cons.mp hp with rfl | hmem
      · obtain ⟨e, he⟩ := h
        rw [h0] at he
        cases he
      · obtain ⟨e2, he2⟩ := ih hmem
        exact ⟨e2, by simp only [generate_iters, h0, he2]⟩

/-- Claim C8: a profiler invocation with nonzero exit status raises the
process error carrying the captured standard-error text, and a single
such failure anywhere in the sweep makes the whole collection raise —
no table (hence no aggregated row for that frequency) is produced. -/
theorem c8_fail_fast (proc : ℚ → ℕ → ProcResult) (pollings : List ℚ) (nb : ℕ)
    (p : ℚ) (i : ℕ) (hp : p ∈ pollings) (hi : i < nb)
    (hexit : (proc p i).exit_code ≠ 0) :
    run_joule_profiler_result (proc p i) = .error (.CalledProcessError (proc p i).stderr) ∧
    ∃ e, generate_iters (fun q k => run_joule_profiler_result (proc q k)) pollings nb
        = .error e := by
  have hrun : run_joule_profiler_result (proc p i)
      = .error (.CalledProcessError (proc p i).stderr) := by
    simp [run_joule_profiler_result, hexit]
  exact ⟨hrun, generate_iters_error _ pollings nb p hp
    (run_iterations_error _ nb i hi ⟨_, hrun⟩)⟩

/-- Witness for C8: one polling point, one trial, exit code 1. -/
theorem c8_witness :
    run_joule_profiler_result ⟨1, "boom", none⟩ = .error (.CalledProcessError "boom") ∧
    ∃ e, generate_iters (fun _ _ => run_joule_profiler_result ⟨1, "boom", none⟩) [0] 1
        = .error e :=
  c8_fail_fast (fun _ _ => ⟨1, "boom", none⟩) [0] 1 0 0 (by simp) (by omega) (by norm_num)

/-- Claim C9: a zero exit status with a missing or unparsable output
artifact raises the distinct read error — not the process error of an
invocation failure, and not a silently empty table. -/
theorem c9_output_error (res : ProcResult) (h0 : res.exit_code = 0) (hout : res.output = none) :
    run_joule_profiler_result res = .error .ReadCsvError ∧
    (∀ s, Err.ReadCsvError ≠ Err.CalledProcessError s) ∧
    run_joule_profiler_result res ≠ .ok [] := by
  have h1 : run_joule_profiler_result res = .error .ReadCsvError := by
    simp [run_joule_profiler_result, h0, hout]
  refine ⟨h1, fun s h => Err.noConfusion h, fun h => ?_⟩
  rw [h1] at h
  exact Except.noConfusion h

/-- Witness for C9: exit code 0, missing output file. -/
theorem c9_witness :
    run_joule_profiler_result ⟨0, "", none⟩ = .error .ReadCsvError ∧
    (∀ s, Err.ReadCsvError ≠ Err.CalledProcessError s) ∧
    run_joule_profiler_result ⟨0, "", none⟩ ≠ .ok [] :=
  c9_output_error ⟨0, "", none⟩ rfl rfl
